import Mathlib

/-!
Shallow embedding of the Kozani backend (src/server.js): the `/api/kozani-chat`
orchestration flow (validation, grounding assembly, memory retrieval, prompt
construction, generation call, best-effort persistence, response shaping) and
the `/login` login-or-register flow, together with the message-store helpers
`saveMessage` and `getRecentMessages`.

JavaScript request-field values are modelled by `JSVal` so that the code's
truthiness tests (`if (!rawQuery)`, `if (user_id)`, `!phone || !password`,
`name || null`) keep their JavaScript semantics.  External effects (SQL
queries, the Groq chat-completion call) are recorded in an explicit trace, and
their outcomes (rows returned, completion choices, append failures) are
supplied through an environment record, so the handlers become pure functions
from request and environment to HTTP status, response body, effect trace and
resulting store.
-/

/-- A JavaScript value as it can arrive in a JSON request body field. -/
inductive JSVal where
  | undef
  | null
  | bool (b : Bool)
  | num (n : Int)
  | str (s : String)
deriving DecidableEq, Repr

/-- JavaScript truthiness for `JSVal` (`if (v)`). -/
def truthy : JSVal → Bool
  | .undef => false
  | .null => false
  | .bool b => b
  | .num n => n != 0
  | .str s => s != ""

/-- One element of the request's `snippets` array: an object whose `text`
field may be absent (`undefined`). -/
structure Snippet where
  text : Option String
deriving DecidableEq, Repr

/-- The `snippets` request field: absent (the destructuring default `[]`
applies), present as an array, or present as a non-array value (on which
`.map` is not a function). -/
inductive SnippetsField where
  | absent
  | arr (l : List Snippet)
  | nonArray
deriving DecidableEq, Repr

/-- `snippets.map((s) => s.text).join("\n\n")`: joining converts an
`undefined` element to the empty string; calling `.map` on a non-array value
throws a `TypeError`. -/
def buildGrounding : SnippetsField → Except Unit String
  | .absent => .ok ""
  | .arr l => .ok (String.intercalate "\n\n" (l.map (fun s => s.text.getD "")))
  | .nonArray => .error ()

/-- The system-prompt template literal of the handler, before `.trim()`:
a leading newline, the fixed persona/safety text, the interpolated grounding
block, then the closing indentation. -/
def systemPromptRaw (grounding : String) : String :=
  "\nYou are Kozani, an empathetic perinatal companion for expectant and new mothers,\n" ++
  "especially in under-resourced settings.\n\n" ++
  "Your goals:\n" ++
  "- Listen with warmth and respect.\n" ++
  "- Reflect their feelings back gently.\n" ++
  "- Offer clear, simple, practical guidance.\n" ++
  "- Encourage seeking professional help when needed.\n" ++
  "- Never judge, shame, or blame.\n\n" ++
  "Safety rules:\n" ++
  "- DO NOT diagnose or prescribe medication.\n" ++
  "- DO NOT give exact doses or treatment plans.\n" ++
  "- DO NOT contradict local healthcare professionals.\n" ++
  "- If there is any sign of danger (severe pain, heavy bleeding, trouble breathing, thoughts of self-harm),\n" ++
  "  clearly advise the user to seek urgent medical help or visit a clinic/hospital as soon as possible.\n\n" ++
  "Keep responses:\n" ++
  "- Short (4–7 sentences).\n" ++
  "- In plain, simple language.\n" ++
  "- Emotionally validating.\n\n" ++
  "Use this trusted information as background context when relevant (but do not quote it word-for-word):\n\n" ++
  grounding ++ "\n    "

/-- JavaScript `String.prototype.trim`: drop leading and trailing whitespace.
Written by structural recursion over the character list so that proofs can
evaluate it. -/
def strTrim (s : String) : String :=
  String.mk (((s.data.dropWhile Char.isWhitespace).reverse.dropWhile Char.isWhitespace).reverse)

/-- The handler's system prompt: the template literal with `.trim()` applied. -/
def systemPrompt (grounding : String) : String :=
  strTrim (systemPromptRaw grounding)

deriving instance DecidableEq for Except

/-- The fixed fallback when the completion carries no content. -/
def fallbackAnswer : String := "I’m sorry, I’m struggling to respond right now."

/-- The fixed apology of the empty-query 400 response. -/
def emptyQueryAnswer : String := "I didn’t receive anything to respond to."

/-- The fixed apology of the catch-all 500 response. -/
def backendErrorAnswer : String :=
  "I’m sorry, something went wrong while thinking. Please try again a bit later."

/-- The model identifier passed to the generation service. -/
def modelId : String := "llama-3.1-8b-instant"

/-- The `safety` object of a ChatResponse. -/
structure Safety where
  ok : Bool
  flags : List String
deriving DecidableEq, Repr

/-- The JSON body of a `/api/kozani-chat` response: `answer`, `safety`, and
the `meta` object's fields (`model` is always present; the other meta fields
only appear on the success path, hence `Option`). -/
structure ChatBody where
  answer : String
  safety : Safety
  metaModel : String
  metaProvider : Option String
  metaGrounded : Option Bool
  metaLanguage : Option String
  metaClient : Option String
deriving DecidableEq, Repr

/-- The 400 body sent when the query is falsy. -/
def emptyQueryBody : ChatBody :=
  { answer := emptyQueryAnswer
    safety := { ok := false, flags := ["empty_query"] }
    metaModel := "none"
    metaProvider := none
    metaGrounded := none
    metaLanguage := none
    metaClient := none }

/-- The 500 body sent by the handler's catch block. -/
def backendErrorBody : ChatBody :=
  { answer := backendErrorAnswer
    safety := { ok := false, flags := ["backend_error"] }
    metaModel := "none"
    metaProvider := none
    metaGrounded := none
    metaLanguage := none
    metaClient := none }

/-- `snippets.length` on the success path (where the field is the default
`[]` or a genuine array). -/
def snippetsCount : SnippetsField → Nat
  | .absent => 0
  | .arr l => l.length
  | .nonArray => 0

/-- A parsed `/api/kozani-chat` request body after destructuring:
`language` defaults to `"en"` only when absent, `client` has no default. -/
structure ChatRequest where
  query : JSVal
  snippets : SnippetsField
  language : Option String
  client : Option String
  user_id : JSVal
deriving DecidableEq, Repr

/-- One role-tagged turn handed to the generation service. -/
structure Turn where
  role : String
  content : JSVal
deriving DecidableEq, Repr

/-- One row of the `messages` table; `ts` models `created_at`.  The store is
kept as an append-only list in insertion order, which is ascending
`created_at` order. -/
structure StoredMsg where
  uid : JSVal
  role : String
  content : JSVal
  ts : Nat
deriving DecidableEq, Repr

/-- One observable external call made by the chat handler. -/
inductive Effect where
  | recentQuery (uid : JSVal) (limit : Nat)
  | genCall (model : String) (msgs : List Turn)
  | insertMsg (uid : JSVal) (role : String) (content : JSVal)
deriving DecidableEq, Repr

/-- `WHERE user_id = $1`: the requesting user's rows, in ascending
`created_at` order (the store's insertion order). -/
def userHistory (store : List StoredMsg) (uid : JSVal) : List StoredMsg :=
  store.filter (fun m => m.uid == uid)

/-- The rows the SQL `ORDER BY created_at DESC LIMIT $2` returns: newest
first, at most `limit` of them. -/
def recentRowsDesc (store : List StoredMsg) (uid : JSVal) (limit : Nat) : List StoredMsg :=
  ((userHistory store uid).reverse).take limit

/-- The retrieved window restored to chronological (oldest-first) order. -/
def memoryRows (store : List StoredMsg) (uid : JSVal) (limit : Nat) : List StoredMsg :=
  (recentRowsDesc store uid limit).reverse

/-- `SELECT role, content`: project a row to a prompt turn. -/
def toTurn (m : StoredMsg) : Turn :=
  { role := m.role, content := m.content }

/-- `getRecentMessages(user_id, limit = 10)`: fetch up to `limit` rows newest
first, then `result.rows.reverse()`. -/
def getRecentMessages (store : List StoredMsg) (uid : JSVal) (limit : Nat := 10) : List Turn :=
  ((recentRowsDesc store uid limit).map toTurn).reverse

/-- `saveMessage(user_id, role, content)`: insert one row; its own
`try/catch` swallows a failing insert, so the caller always sees success. -/
def saveMessage (fails : Bool) (store : List StoredMsg) (uid : JSVal) (role : String)
    (content : JSVal) (ts : Nat) : List StoredMsg :=
  if fails then store else store ++ [{ uid := uid, role := role, content := content, ts := ts }]

/-- One element of `completion.choices`; `content` is `none` when
`message.content` is null or absent. -/
structure Choice where
  content : Option String
deriving DecidableEq, Repr

/-- The environment a single chat request runs against: the current store,
the generation service's outcome (`Except.error` models a rejected call),
whether the history `SELECT` rejects, whether each of the two `INSERT`s
rejects, and the `created_at` clock for new rows. -/
structure Env where
  store : List StoredMsg
  gen : Except Unit (List Choice)
  histFail : Bool
  saveFail1 : Bool
  saveFail2 : Bool
  now : Nat

/-- What one run of the chat handler produces: HTTP status, JSON body, the
ordered trace of external calls, and the store afterwards. -/
structure Outcome where
  status : Nat
  body : ChatBody
  trace : List Effect
  store : List StoredMsg
deriving DecidableEq, Repr

/-- `completion.choices?.[0]?.message?.content ?? fallback`: nullish
coalescing, so only a missing first choice or null content falls back — an
empty string passes through. -/
def extractAnswer (cs : List Choice) : String :=
  (cs.head?.bind Choice.content).getD fallbackAnswer

/-- The success-path response body. -/
def okBody (answer : String) (req : ChatRequest) : ChatBody :=
  { answer := answer
    safety := { ok := true, flags := [] }
    metaModel := modelId
    metaProvider := some "groq"
    metaGrounded := some (decide (snippetsCount req.snippets > 0))
    metaLanguage := some (req.language.getD "en")
    metaClient := req.client }

/-- The `POST /api/kozani-chat` handler: validate the query, assemble the
grounding block and system prompt, load up to 8 recent turns when a user id
is present, build the prompt turn sequence, call the generation service,
best-effort persist the user turn then the assistant turn, and respond; any
error after validation is caught and mapped to the fixed 500 body. -/
def kozaniChat (env : Env) (req : ChatRequest) : Outcome :=
  if !truthy req.query then
    { status := 400, body := emptyQueryBody, trace := [], store := env.store }
  else
    match buildGrounding req.snippets with
    | .error _ =>
        { status := 500, body := backendErrorBody, trace := [], store := env.store }
    | .ok grounding =>
        let sys := systemPrompt grounding
        if truthy req.user_id then
          if env.histFail then
            { status := 500, body := backendErrorBody
              trace := [Effect.recentQuery req.user_id 8], store := env.store }
          else
            let memory := getRecentMessages env.store req.user_id 8
            let msgs := Turn.mk "system" (JSVal.str sys) :: (memory ++ [Turn.mk "user" req.query])
            match env.gen with
            | .error _ =>
                { status := 500, body := backendErrorBody
                  trace := [Effect.recentQuery req.user_id 8, Effect.genCall modelId msgs]
                  store := env.store }
            | .ok cs =>
                let answer := extractAnswer cs
                let store1 := saveMessage env.saveFail1 env.store req.user_id "user" req.query env.now
                let store2 := saveMessage env.saveFail2 store1 req.user_id "assistant"
                  (JSVal.str answer) (env.now + 1)
                { status := 200, body := okBody answer req
                  trace := [Effect.recentQuery req.user_id 8, Effect.genCall modelId msgs,
                    Effect.insertMsg req.user_id "user" req.query,
                    Effect.insertMsg req.user_id "assistant" (JSVal.str answer)]
                  store := store2 }
        else
          let msgs := Turn.mk "system" (JSVal.str sys) :: [Turn.mk "user" req.query]
          match env.gen with
          | .error _ =>
              { status := 500, body := backendErrorBody
                trace := [Effect.genCall modelId msgs], store := env.store }
          | .ok cs =>
              let answer := extractAnswer cs
              { status := 200, body := okBody answer req
                trace := [Effect.genCall modelId msgs], store := env.store }

/-- A row of the `users` table. -/
structure UserRow where
  id : Nat
  phone : JSVal
  passwordHash : String
  name : JSVal
deriving DecidableEq, Repr

/-- `SELECT ... FROM users WHERE phone = $1` followed by `rows[0] || null`. -/
def findUserByPhone (users : List UserRow) (phone : JSVal) : Option UserRow :=
  (users.filter (fun u => u.phone == phone)).head?

/-- One observable store call made by the login handler. -/
inductive LoginEffect where
  | selectUser (phone : JSVal)
  | insertUser (phone : JSVal)
deriving DecidableEq, Repr

/-- The JSON body of a `/login` response: the error shape or the user
payload shape. -/
inductive LoginBody where
  | err (msg : String)
  | ok (user_id : Nat) (name : JSVal) (phone : JSVal) (is_new : Bool)
deriving DecidableEq, Repr

/-- What one run of the login handler produces. -/
structure LoginOutcome where
  status : Nat
  body : LoginBody
  trace : List LoginEffect
  users : List UserRow
deriving DecidableEq, Repr

/-- The environment a login request runs against: the users table, the id
the next `INSERT ... RETURNING id` yields, and oracles for `bcrypt.compare`
and `bcrypt.hash` (a salted hash is not a function the model can compute). -/
structure LoginEnv where
  users : List UserRow
  nextId : Nat
  bcompare : JSVal → String → Bool
  bhash : JSVal → String

/-- The `POST /login` handler: validate, look the phone up, then verify an
existing user's password or create a new user (`name || null`). -/
def login (env : LoginEnv) (phone password name : JSVal) : LoginOutcome :=
  if !truthy phone || !truthy password then
    { status := 400, body := .err "Phone and password are required."
      trace := [], users := env.users }
  else
    match findUserByPhone env.users phone with
    | some u =>
        if env.bcompare password u.passwordHash then
          { status := 200, body := .ok u.id u.name u.phone false
            trace := [.selectUser phone], users := env.users }
        else
          { status := 401, body := .err "Invalid phone or password."
            trace := [.selectUser phone], users := env.users }
    | none =>
        let newUser : UserRow :=
          { id := env.nextId, phone := phone, passwordHash := env.bhash password
            name := if truthy name then name else .null }
        { status := 201, body := .ok newUser.id newUser.name newUser.phone true
          trace := [.selectUser phone, .insertUser phone], users := env.users ++ [newUser] }

/-- Recognize a store `INSERT` among the chat handler's effects. -/
def isInsertEffect : Effect → Bool
  | .insertMsg _ _ _ => true
  | _ => false

theorem memoryRows_isSuffix (store : List StoredMsg) (uid : JSVal) (n : Nat) :
    memoryRows store uid n <:+ userHistory store uid := by
  refine ⟨((userHistory store uid).reverse.drop n).reverse, ?_⟩
  rw [memoryRows, recentRowsDesc, ← List.reverse_append, List.take_append_drop,
    List.reverse_reverse]

theorem memoryRows_length_le (store : List StoredMsg) (uid : JSVal) (n : Nat) :
    (memoryRows store uid n).length ≤ n := by
  simp [memoryRows, recentRowsDesc]

theorem getRecentMessages_eq_map (store : List StoredMsg) (uid : JSVal) (n : Nat) :
    getRecentMessages store uid n = (memoryRows store uid n).map toTurn := by
  simp [getRecentMessages, memoryRows, List.map_reverse]

theorem memoryRows_chronological (store : List StoredMsg) (uid : JSVal) (n : Nat)
    (h : (userHistory store uid).Pairwise (fun a b => a.ts ≤ b.ts)) :
    (memoryRows store uid n).Pairwise (fun a b => a.ts ≤ b.ts) :=
  h.sublist (memoryRows_isSuffix store uid n).sublist

/-- Claim C1: for every chat request carrying a (truthy) user id, when history
retrieval succeeds, the turn sequence passed to the generation service is
exactly the fixed system instruction, then the user's prior messages in
chronologically ascending order (at most 8, each keeping its original role),
then the new utterance with role "user"; the prior turns are a suffix of the
user's chronological history, hence ascending whenever the history is. -/
theorem c1_prompt_turn_sequence (env : Env) (req : ChatRequest) (g : String)
    (hq : truthy req.query = true) (hu : truthy req.user_id = true)
    (hg : buildGrounding req.snippets = Except.ok g) (hh : env.histFail = false) :
    Effect.genCall modelId
        (Turn.mk "system" (JSVal.str (systemPrompt g)) ::
          ((memoryRows env.store req.user_id 8).map toTurn ++ [Turn.mk "user" req.query]))
      ∈ (kozaniChat env req).trace
    ∧ (∀ m msgs, Effect.genCall m msgs ∈ (kozaniChat env req).trace →
        m = modelId ∧ msgs =
          Turn.mk "system" (JSVal.str (systemPrompt g)) ::
            ((memoryRows env.store req.user_id 8).map toTurn ++ [Turn.mk "user" req.query]))
    ∧ ((memoryRows env.store req.user_id 8).map toTurn).length ≤ 8
    ∧ memoryRows env.store req.user_id 8 <:+ userHistory env.store req.user_id
    ∧ ((userHistory env.store req.user_id).Pairwise (fun a b => a.ts ≤ b.ts) →
       (memoryRows env.store req.user_id 8).Pairwise (fun a b => a.ts ≤ b.ts)) := by
  refine ⟨?_, ?_, ?_, memoryRows_isSuffix _ _ _, memoryRows_chronological _ _ _⟩
  · rcases hgen : env.gen with e | cs <;>
      simp [kozaniChat, hq, hu, hg, hh, hgen, getRecentMessages_eq_map]
  · intro m msgs hm
    rcases hgen : env.gen with e | cs <;>
      ( rw [kozaniChat] at hm
        simp [hq, hu, hg, hh, hgen, getRecentMessages_eq_map] at hm
        tauto )
  · simp only [List.length_map]
    exact memoryRows_length_le _ _ _

/-- Claim C2: a chat request whose query is the empty string or absent is
answered with the fixed apology, `safety.ok = false`, flag set exactly
`["empty_query"]`, HTTP 400, an empty effect trace (so no store call and no
generation call), and an unchanged store. -/
theorem c2_empty_query_short_circuit (env : Env) (req : ChatRequest)
    (hq : req.query = JSVal.str "" ∨ req.query = JSVal.undef) :
    kozaniChat env req =
      { status := 400, body := emptyQueryBody, trace := [], store := env.store }
    ∧ emptyQueryBody.answer = emptyQueryAnswer
    ∧ emptyQueryBody.safety.ok = false
    ∧ emptyQueryBody.safety.flags = ["empty_query"] := by
  refine ⟨?_, rfl, rfl, rfl⟩
  rcases hq with h | h <;> simp [kozaniChat, h, truthy]

/-- Claim C3: on the success path with a (truthy) user id the handler issues
exactly two store inserts, the new user utterance (role "user") and then the
generated reply (role "assistant"), in that order; when both succeed the
store gains exactly those two rows at its tail; and whatever the two
append-failure outcomes are, the HTTP status and body are unchanged. -/
theorem c3_persist_user_then_assistant (env : Env) (req : ChatRequest) (g : String)
    (cs : List Choice)
    (hq : truthy req.query = true) (hu : truthy req.user_id = true)
    (hg : buildGrounding req.snippets = Except.ok g) (hh : env.histFail = false)
    (hgen : env.gen = Except.ok cs) :
    (kozaniChat env req).status = 200
    ∧ (kozaniChat env req).body = okBody (extractAnswer cs) req
    ∧ (kozaniChat env req).trace.filter isInsertEffect =
        [Effect.insertMsg req.user_id "user" req.query,
         Effect.insertMsg req.user_id "assistant" (JSVal.str (extractAnswer cs))]
    ∧ (env.saveFail1 = false → env.saveFail2 = false →
        (kozaniChat env req).store = env.store ++
          [⟨req.user_id, "user", req.query, env.now⟩,
           ⟨req.user_id, "assistant", JSVal.str (extractAnswer cs), env.now + 1⟩])
    ∧ (∀ f1 f2 : Bool,
        (kozaniChat { env with saveFail1 := f1, saveFail2 := f2 } req).status =
          (kozaniChat env req).status
        ∧ (kozaniChat { env with saveFail1 := f1, saveFail2 := f2 } req).body =
          (kozaniChat env req).body) := by
  refine ⟨?_, ?_, ?_, ?_, ?_⟩
  · simp [kozaniChat, hq, hu, hg, hh, hgen]
  · simp [kozaniChat, hq, hu, hg, hh, hgen]
  · simp [kozaniChat, hq, hu, hg, hh, hgen, isInsertEffect, List.filter]
  · intro h1 h2
    simp [kozaniChat, hq, hu, hg, hh, hgen, saveMessage, h1, h2]
  · intro f1 f2
    constructor <;> simp [kozaniChat, hq, hu, hg, hh, hgen]

/-- Claim C4: once the empty-query validation has passed, a failure of
grounding assembly, of history retrieval, or of the generation call is caught
at the handler boundary and mapped to HTTP 500 with the fixed apology body
carrying flag set exactly `["backend_error"]` and no further detail. -/
theorem c4_backend_error_boundary (env : Env) (req : ChatRequest)
    (hq : truthy req.query = true)
    (herr : buildGrounding req.snippets = Except.error ()
      ∨ (truthy req.user_id = true ∧ env.histFail = true)
      ∨ env.gen = Except.error ()) :
    (kozaniChat env req).status = 500
    ∧ (kozaniChat env req).body = backendErrorBody
    ∧ backendErrorBody.answer = backendErrorAnswer
    ∧ backendErrorBody.safety = ⟨false, ["backend_error"]⟩ := by
  have key : (kozaniChat env req).status = 500 ∧ (kozaniChat env req).body = backendErrorBody := by
    rcases herr with h | ⟨h1, h2⟩ | h
    · simp [kozaniChat, hq, h]
    · rcases hgr : buildGrounding req.snippets with e | g
      · simp [kozaniChat, hq, hgr]
      · simp [kozaniChat, hq, hgr, h1, h2]
    · rcases hgr : buildGrounding req.snippets with e | g
      · simp [kozaniChat, hq, hgr]
      · cases hu : truthy req.user_id
        · simp [kozaniChat, hq, hgr, hu, h]
        · cases hh : env.histFail
          · simp [kozaniChat, hq, hgr, hu, hh, h]
          · simp [kozaniChat, hq, hgr, hu, hh]
  exact ⟨key.1, key.2, rfl, rfl⟩

/-- Claim C5: the login handler rejects a missing (falsy) phone or password
with HTTP 400 before any store call; creates the user and answers HTTP 201
with `is_new = true` when the phone is unknown; answers HTTP 200 with
`is_new = false` when the phone is known and the password verifies; and
answers HTTP 401 with the users table unchanged when it does not verify. -/
theorem c5_login_cases (env : LoginEnv) (phone password name : JSVal) :
    (truthy phone = false ∨ truthy password = false →
      login env phone password name =
        ⟨400, .err "Phone and password are required.", [], env.users⟩)
    ∧ (truthy phone = true → truthy password = true →
        findUserByPhone env.users phone = none →
        login env phone password name =
          ⟨201, .ok env.nextId (if truthy name then name else .null) phone true,
            [.selectUser phone, .insertUser phone],
            env.users ++
              [⟨env.nextId, phone, env.bhash password, if truthy name then name else .null⟩]⟩)
    ∧ (∀ u, truthy phone = true → truthy password = true →
        findUserByPhone env.users phone = some u →
        env.bcompare password u.passwordHash = true →
        login env phone password name =
          ⟨200, .ok u.id u.name u.phone false, [.selectUser phone], env.users⟩)
    ∧ (∀ u, truthy phone = true → truthy password = true →
        findUserByPhone env.users phone = some u →
        env.bcompare password u.passwordHash = false →
        login env phone password name =
          ⟨401, .err "Invalid phone or password.", [.selectUser phone], env.users⟩) := by
  refine ⟨?_, ?_, ?_, ?_⟩
  · intro h
    rcases h with h | h <;> simp [login, h]
  · intro hp hw hf
    simp [login, hp, hw, hf]
  · intro u hp hw hf hc
    simp [login, hp, hw, hf, hc]
  · intro u hp hw hf hc
    simp [login, hp, hw, hf, hc]

/-- Claim C6: history retrieval returns the user's messages obtained by
taking the `limit` most recent rows in the store's native newest-first order
and reversing them: the result has length at most `limit`, is the oldest-first
window `memoryRows`, that window is a suffix of the user's chronological
history, and it is ascending by timestamp whenever the history is. -/
theorem c6_getRecentMessages_shape (store : List StoredMsg) (uid : JSVal) (limit : Nat) :
    (getRecentMessages store uid limit).length ≤ limit
    ∧ getRecentMessages store uid limit = ((recentRowsDesc store uid limit).map toTurn).reverse
    ∧ getRecentMessages store uid limit = (memoryRows store uid limit).map toTurn
    ∧ memoryRows store uid limit <:+ userHistory store uid
    ∧ ((userHistory store uid).Pairwise (fun a b => a.ts ≤ b.ts) →
       (memoryRows store uid limit).Pairwise (fun a b => a.ts ≤ b.ts)) := by
  refine ⟨?_, rfl, getRecentMessages_eq_map _ _ _, memoryRows_isSuffix _ _ _,
    memoryRows_chronological _ _ _⟩
  rw [getRecentMessages_eq_map]
  simp only [List.length_map]
  exact memoryRows_length_le _ _ _

/-- Counterexample to claim C7 as stated: when the generation service returns
a completion whose content is the empty string, the nullish-coalescing
extraction keeps the empty string, so the response's answer is the empty
reply and not the fixed fallback apology. -/
theorem c7_counterexample_empty_content :
    (kozaniChat ⟨[], .ok [⟨some ""⟩], false, false, false, 0⟩
        ⟨.str "hi", .absent, none, none, .null⟩).body.answer = ""
    ∧ (kozaniChat ⟨[], .ok [⟨some ""⟩], false, false, false, 0⟩
        ⟨.str "hi", .absent, none, none, .null⟩).body.answer ≠ fallbackAnswer := by
  exact ⟨by decide, by decide⟩

/-- Claim C7 (amended): the response's answer is the fixed fallback apology
exactly when the first completion's content is null or absent; any present
string content, including the empty string, is returned as-is. -/
theorem c7_fallback_only_on_nullish (env : Env) (req : ChatRequest) (g : String)
    (cs : List Choice)
    (hq : truthy req.query = true) (hg : buildGrounding req.snippets = Except.ok g)
    (hh : env.histFail = false) (hgen : env.gen = Except.ok cs) :
    (cs.head?.bind Choice.content = none →
      (kozaniChat env req).body.answer = fallbackAnswer)
    ∧ (∀ s, cs.head?.bind Choice.content = some s →
        (kozaniChat env req).body.answer = s) := by
  constructor
  · intro h
    cases hu : truthy req.user_id <;>
      simp [kozaniChat, hq, hu, hg, hh, hgen, extractAnswer, h, okBody]
  · intro s h
    cases hu : truthy req.user_id <;>
      simp [kozaniChat, hq, hu, hg, hh, hgen, extractAnswer, h, okBody]

/-- Counterexample to claim C8 as stated: a request whose snippets list holds
one snippet with empty text yields an empty assembled grounding block, yet
the successful response reports `meta.grounded = true`, because the code
tests the snippet count, not the grounding block. -/
theorem c8_counterexample_empty_snippet_text :
    buildGrounding (SnippetsField.arr [⟨some ""⟩]) = Except.ok ""
    ∧ (kozaniChat ⟨[], .ok [⟨some "x"⟩], false, false, false, 0⟩
        ⟨.str "hi", .arr [⟨some ""⟩], none, none, .null⟩).body.metaGrounded = some true := by
  exact ⟨by decide, by decide⟩

/-- Claim C8 (amended): every successful chat response carries
`safety = (ok = true, flags = [])`, `meta.grounded` true exactly when the
snippets list is non-empty (rather than when the grounding block is
non-empty), `meta.model` equal to the model identifier used for the
generation call (which occurs in the trace), `meta.provider = "groq"`, and
the request's language (defaulted to "en") and client echoed back. -/
theorem c8_success_response_shape (env : Env) (req : ChatRequest) (g : String)
    (cs : List Choice)
    (hq : truthy req.query = true) (hg : buildGrounding req.snippets = Except.ok g)
    (hh : env.histFail = false) (hgen : env.gen = Except.ok cs) :
    (kozaniChat env req).status = 200
    ∧ (kozaniChat env req).body.safety = ⟨true, []⟩
    ∧ (kozaniChat env req).body.metaGrounded = some (decide (snippetsCount req.snippets > 0))
    ∧ (kozaniChat env req).body.metaModel = modelId
    ∧ (∃ msgs, Effect.genCall ((kozaniChat env req).body.metaModel) msgs
        ∈ (kozaniChat env req).trace)
    ∧ (kozaniChat env req).body.metaProvider = some "groq"
    ∧ (kozaniChat env req).body.metaLanguage = some (req.language.getD "en")
    ∧ (kozaniChat env req).body.metaClient = req.client := by
  cases hu : truthy req.user_id <;>
    simp [kozaniChat, hq, hu, hg, hh, hgen, okBody]

/-- Claim C9: the empty-query validation is JavaScript falsiness of the query
field: a non-empty whitespace-only string is truthy, passes validation, and
is sent to the generation service and persisted verbatim, while the falsy
non-string value 0 is rejected with the empty-query response. -/
theorem c9_truthiness_validation (env : Env) (req : ChatRequest) (s : String)
    (g : String) (cs : List Choice)
    (hs : s ≠ "") (hq : req.query = JSVal.str s)
    (hu : truthy req.user_id = true) (hg : buildGrounding req.snippets = Except.ok g)
    (hh : env.histFail = false) (hgen : env.gen = Except.ok cs)
    (hsf : env.saveFail1 = false) :
    truthy (JSVal.str s) = true
    ∧ Effect.genCall modelId
        (Turn.mk "system" (JSVal.str (systemPrompt g)) ::
          (getRecentMessages env.store req.user_id 8 ++ [Turn.mk "user" (JSVal.str s)]))
        ∈ (kozaniChat env req).trace
    ∧ Effect.insertMsg req.user_id "user" (JSVal.str s) ∈ (kozaniChat env req).trace
    ∧ (⟨req.user_id, "user", JSVal.str s, env.now⟩ : StoredMsg) ∈ (kozaniChat env req).store
    ∧ truthy (JSVal.num 0) = false
    ∧ (kozaniChat env { req with query := JSVal.num 0 }).status = 400
    ∧ (kozaniChat env { req with query := JSVal.num 0 }).body = emptyQueryBody := by
  have ht : truthy (JSVal.str s) = true := by simp [truthy, hs]
  have hq' : truthy req.query = true := by rw [hq]; exact ht
  refine ⟨ht, ?_, ?_, ?_, rfl, ?_, ?_⟩
  · simp [kozaniChat, hq', hu, hg, hh, hgen, hq, ht]
  · simp [kozaniChat, hq', hu, hg, hh, hgen, hq, ht]
  · cases h2 : env.saveFail2 <;>
      simp [kozaniChat, hq', hu, hg, hh, hgen, hq, ht, saveMessage, hsf, h2]
  · simp [kozaniChat, truthy]
  · simp [kozaniChat, truthy]

/-- Claim C10: a chat request whose snippets field is present but not an
array makes grounding assembly throw, and the handler answers with the HTTP
500 backend-error apology, an empty effect trace (so no generation call and
no persistence), and an unchanged store. -/
theorem c10_non_array_snippets (env : Env) (req : ChatRequest)
    (hq : truthy req.query = true) (hs : req.snippets = SnippetsField.nonArray) :
    buildGrounding req.snippets = Except.error ()
    ∧ kozaniChat env req =
        { status := 500, body := backendErrorBody, trace := [], store := env.store } := by
  constructor
  · rw [hs]; rfl
  · simp [kozaniChat, hq, hs, buildGrounding]

/-- Concrete instantiation of the C1 theorem at an explicit request and environment. -/
theorem c1_prompt_turn_sequence_witness :
    Effect.genCall modelId
        (Turn.mk "system" (JSVal.str (systemPrompt "")) ::
          ((memoryRows [] (JSVal.num 1) 8).map toTurn ++ [Turn.mk "user" (JSVal.str "hi")]))
      ∈ (kozaniChat ⟨[], .ok [⟨some "x"⟩], false, false, false, 0⟩
          ⟨.str "hi", .absent, none, none, .num 1⟩).trace
    ∧ ((memoryRows [] (JSVal.num 1) 8).map toTurn).length ≤ 8
    ∧ memoryRows [] (JSVal.num 1) 8 <:+ userHistory [] (JSVal.num 1)
    ∧ (memoryRows [] (JSVal.num 1) 8).Pairwise (fun a b => a.ts ≤ b.ts) := by
  have h := c1_prompt_turn_sequence ⟨[], .ok [⟨some "x"⟩], false, false, false, 0⟩
    ⟨.str "hi", .absent, none, none, .num 1⟩ "" (by decide) (by decide) (by decide) (by decide)
  exact ⟨h.1, h.2.2.1, h.2.2.2.1, h.2.2.2.2 (by simp [userHistory])⟩

/-- Concrete instantiation of the C2 theorem at the empty-string query. -/
theorem c2_empty_query_short_circuit_witness :
    kozaniChat ⟨[], .ok [], false, false, false, 0⟩ ⟨.str "", .absent, none, none, .null⟩ =
      { status := 400, body := emptyQueryBody, trace := [], store := [] }
    ∧ emptyQueryBody.answer = emptyQueryAnswer
    ∧ emptyQueryBody.safety.ok = false
    ∧ emptyQueryBody.safety.flags = ["empty_query"] :=
  c2_empty_query_short_circuit ⟨[], .ok [], false, false, false, 0⟩
    ⟨.str "", .absent, none, none, .null⟩ (Or.inl rfl)

/-- Concrete instantiation of the C3 theorem, including the both-appends-fail case. -/
theorem c3_persist_user_then_assistant_witness :
    (kozaniChat ⟨[], .ok [⟨some "x"⟩], false, false, false, 0⟩
        ⟨.str "hi", .absent, none, none, .num 1⟩).status = 200
    ∧ (kozaniChat ⟨[], .ok [⟨some "x"⟩], false, false, false, 0⟩
        ⟨.str "hi", .absent, none, none, .num 1⟩).trace.filter isInsertEffect =
        [Effect.insertMsg (JSVal.num 1) "user" (JSVal.str "hi"),
         Effect.insertMsg (JSVal.num 1) "assistant" (JSVal.str (extractAnswer [⟨some "x"⟩]))]
    ∧ (kozaniChat ⟨[], .ok [⟨some "x"⟩], false, false, false, 0⟩
        ⟨.str "hi", .absent, none, none, .num 1⟩).store = [] ++
        [⟨JSVal.num 1, "user", JSVal.str "hi", 0⟩,
         ⟨JSVal.num 1, "assistant", JSVal.str (extractAnswer [⟨some "x"⟩]), 0 + 1⟩]
    ∧ (kozaniChat ⟨[], .ok [⟨some "x"⟩], false, true, true, 0⟩
        ⟨.str "hi", .absent, none, none, .num 1⟩).body =
      (kozaniChat ⟨[], .ok [⟨some "x"⟩], false, false, false, 0⟩
        ⟨.str "hi", .absent, none, none, .num 1⟩).body := by
  have h := c3_persist_user_then_assistant ⟨[], .ok [⟨some "x"⟩], false, false, false, 0⟩
    ⟨.str "hi", .absent, none, none, .num 1⟩ "" [⟨some "x"⟩]
    (by decide) (by decide) (by decide) rfl rfl
  exact ⟨h.1, h.2.2.1, h.2.2.2.1 rfl rfl, (h.2.2.2.2 true true).2⟩

/-- Concrete instantiation of the C4 theorem at a failing generation call. -/
theorem c4_backend_error_boundary_witness :
    (kozaniChat ⟨[], .error (), false, false, false, 0⟩
        ⟨.str "hi", .absent, none, none, .null⟩).status = 500
    ∧ (kozaniChat ⟨[], .error (), false, false, false, 0⟩
        ⟨.str "hi", .absent, none, none, .null⟩).body = backendErrorBody
    ∧ backendErrorBody.answer = backendErrorAnswer
    ∧ backendErrorBody.safety = ⟨false, ["backend_error"]⟩ :=
  c4_backend_error_boundary ⟨[], .error (), false, false, false, 0⟩
    ⟨.str "hi", .absent, none, none, .null⟩ (by decide) (Or.inr (Or.inr rfl))

/-- Concrete instantiation of the C5 theorem on the unknown-phone creation branch. -/
theorem c5_login_cases_witness :
    login ⟨[], 7, fun _ _ => true, fun _ => "h"⟩ (.str "p") (.str "w") .undef =
      ⟨201, .ok 7 JSVal.null (JSVal.str "p") true,
        [.selectUser (.str "p"), .insertUser (.str "p")],
        [⟨7, JSVal.str "p", "h", JSVal.null⟩]⟩ :=
  (c5_login_cases ⟨[], 7, fun _ _ => true, fun _ => "h"⟩ (.str "p") (.str "w") .undef).2.1
    (by decide) (by decide) rfl

/-- Concrete instantiation of the C6 theorem on a two-message history. -/
theorem c6_getRecentMessages_shape_witness :
    (getRecentMessages [⟨JSVal.num 1, "user", JSVal.str "a", 0⟩,
        ⟨JSVal.num 1, "assistant", JSVal.str "b", 1⟩] (JSVal.num 1) 8).length ≤ 8
    ∧ getRecentMessages [⟨JSVal.num 1, "user", JSVal.str "a", 0⟩,
        ⟨JSVal.num 1, "assistant", JSVal.str "b", 1⟩] (JSVal.num 1) 8 =
      ((recentRowsDesc [⟨JSVal.num 1, "user", JSVal.str "a", 0⟩,
        ⟨JSVal.num 1, "assistant", JSVal.str "b", 1⟩] (JSVal.num 1) 8).map toTurn).reverse
    ∧ memoryRows [⟨JSVal.num 1, "user", JSVal.str "a", 0⟩,
        ⟨JSVal.num 1, "assistant", JSVal.str "b", 1⟩] (JSVal.num 1) 8 <:+
      userHistory [⟨JSVal.num 1, "user", JSVal.str "a", 0⟩,
        ⟨JSVal.num 1, "assistant", JSVal.str "b", 1⟩] (JSVal.num 1)
    ∧ (memoryRows [⟨JSVal.num 1, "user", JSVal.str "a", 0⟩,
        ⟨JSVal.num 1, "assistant", JSVal.str "b", 1⟩] (JSVal.num 1) 8).Pairwise
        (fun a b => a.ts ≤ b.ts) := by
  have h := c6_getRecentMessages_shape [⟨JSVal.num 1, "user", JSVal.str "a", 0⟩,
    ⟨JSVal.num 1, "assistant", JSVal.str "b", 1⟩] (JSVal.num 1) 8
  refine ⟨h.1, h.2.1, h.2.2.2.1, h.2.2.2.2 ?_⟩
  simp [userHistory]

/-- Concrete instantiation of the amended C7 theorem on the no-choices and present-content cases. -/
theorem c7_fallback_only_on_nullish_witness :
    (kozaniChat ⟨[], .ok [], false, false, false, 0⟩
        ⟨.str "hi", .absent, none, none, .null⟩).body.answer = fallbackAnswer
    ∧ (kozaniChat ⟨[], .ok [⟨some "x"⟩], false, false, false, 0⟩
        ⟨.str "hi", .absent, none, none, .null⟩).body.answer = "x" :=
  ⟨(c7_fallback_only_on_nullish ⟨[], .ok [], false, false, false, 0⟩
      ⟨.str "hi", .absent, none, none, .null⟩ "" [] (by decide) (by decide) rfl rfl).1 rfl,
   (c7_fallback_only_on_nullish ⟨[], .ok [⟨some "x"⟩], false, false, false, 0⟩
      ⟨.str "hi", .absent, none, none, .null⟩ "" [⟨some "x"⟩]
      (by decide) (by decide) rfl rfl).2 "x" rfl⟩

/-- Concrete instantiation of the amended C8 theorem on a grounded request. -/
theorem c8_success_response_shape_witness :
    (kozaniChat ⟨[], .ok [⟨some "x"⟩], false, false, false, 0⟩
        ⟨.str "hi", .arr [⟨some "tip"⟩], some "sn", some "app", .null⟩).status = 200
    ∧ (kozaniChat ⟨[], .ok [⟨some "x"⟩], false, false, false, 0⟩
        ⟨.str "hi", .arr [⟨some "tip"⟩], some "sn", some "app", .null⟩).body.safety = ⟨true, []⟩
    ∧ (kozaniChat ⟨[], .ok [⟨some "x"⟩], false, false, false, 0⟩
        ⟨.str "hi", .arr [⟨some "tip"⟩], some "sn", some "app", .null⟩).body.metaGrounded =
      some (decide (snippetsCount (SnippetsField.arr [⟨some "tip"⟩]) > 0))
    ∧ (kozaniChat ⟨[], .ok [⟨some "x"⟩], false, false, false, 0⟩
        ⟨.str "hi", .arr [⟨some "tip"⟩], some "sn", some "app", .null⟩).body.metaModel = modelId
    ∧ (kozaniChat ⟨[], .ok [⟨some "x"⟩], false, false, false, 0⟩
        ⟨.str "hi", .arr [⟨some "tip"⟩], some "sn", some "app", .null⟩).body.metaProvider =
      some "groq"
    ∧ (kozaniChat ⟨[], .ok [⟨some "x"⟩], false, false, false, 0⟩
        ⟨.str "hi", .arr [⟨some "tip"⟩], some "sn", some "app", .null⟩).body.metaLanguage =
      some ((some "sn").getD "en")
    ∧ (kozaniChat ⟨[], .ok [⟨some "x"⟩], false, false, false, 0⟩
        ⟨.str "hi", .arr [⟨some "tip"⟩], some "sn", some "app", .null⟩).body.metaClient =
      some "app" := by
  have h := c8_success_response_shape ⟨[], .ok [⟨some "x"⟩], false, false, false, 0⟩
    ⟨.str "hi", .arr [⟨some "tip"⟩], some "sn", some "app", .null⟩ "tip" [⟨some "x"⟩]
    (by decide) (by decide) rfl rfl
  exact ⟨h.1, h.2.1, h.2.2.1, h.2.2.2.1, h.2.2.2.2.2.1, h.2.2.2.2.2.2.1, h.2.2.2.2.2.2.2⟩

/-- Concrete instantiation of the C9 theorem at the whitespace query and the number zero query. -/
theorem c9_truthiness_validation_witness :
    truthy (JSVal.str " ") = true
    ∧ Effect.genCall modelId
        (Turn.mk "system" (JSVal.str (systemPrompt "")) ::
          (getRecentMessages [] (JSVal.num 1) 8 ++ [Turn.mk "user" (JSVal.str " ")]))
        ∈ (kozaniChat ⟨[], .ok [⟨some "x"⟩], false, false, false, 0⟩
            ⟨.str " ", .absent, none, none, .num 1⟩).trace
    ∧ Effect.insertMsg (JSVal.num 1) "user" (JSVal.str " ")
        ∈ (kozaniChat ⟨[], .ok [⟨some "x"⟩], false, false, false, 0⟩
            ⟨.str " ", .absent, none, none, .num 1⟩).trace
    ∧ (⟨JSVal.num 1, "user", JSVal.str " ", 0⟩ : StoredMsg)
        ∈ (kozaniChat ⟨[], .ok [⟨some "x"⟩], false, false, false, 0⟩
            ⟨.str " ", .absent, none, none, .num 1⟩).store
    ∧ truthy (JSVal.num 0) = false
    ∧ (kozaniChat ⟨[], .ok [⟨some "x"⟩], false, false, false, 0⟩
        ⟨.num 0, .absent, none, none, .num 1⟩).status = 400
    ∧ (kozaniChat ⟨[], .ok [⟨some "x"⟩], false, false, false, 0⟩
        ⟨.num 0, .absent, none, none, .num 1⟩).body = emptyQueryBody :=
  c9_truthiness_validation ⟨[], .ok [⟨some "x"⟩], false, false, false, 0⟩
    ⟨.str " ", .absent, none, none, .num 1⟩ " " "" [⟨some "x"⟩]
    (by decide) rfl (by decide) (by decide) rfl rfl rfl

/-- Concrete instantiation of the C10 theorem. -/
theorem c10_non_array_snippets_witness :
    buildGrounding SnippetsField.nonArray = Except.error ()
    ∧ kozaniChat ⟨[], .ok [], false, false, false, 0⟩
        ⟨.str "hi", .nonArray, none, none, .null⟩ =
      { status := 500, body := backendErrorBody, trace := [], store := [] } :=
  c10_non_array_snippets ⟨[], .ok [], false, false, false, 0⟩
    ⟨.str "hi", .nonArray, none, none, .null⟩ (by decide) rfl
